import Mathlib

/-!
Mirroring web crawler: a shallow embedding of `crawler/crawler.go` and `storage/storage.go`

Modelling conventions.

* A Go `string` / `[]byte` is a `List Char` (`Str`).  Every string operation the crawler uses
  (`HasPrefix`, `TrimPrefix`, `Contains`, concatenation, comparison, `bytes.Equal`) gives the same
  answer on the UTF-8 bytes and on the code points of well-formed text.
* `map[string]bool` (`visitedURLs`) is an association list with at most one entry per key;
  `mapGet` is the lookup, `mapIndex` the comma-ok lookup, `mapSet` the assignment `m[k] = v`.
* The collaborators outside the repository (`url.Parse`, `http.Get` + `ioutil.ReadAll`, the file
  system behind `DiskStorage`) are the fields of `Env`; every theorem quantifies over them.
  `filepath.Join`, `filepath.Clean` and `filepath.Ext` follow the Unix sources of `path/filepath`.
* Goroutines are run one at a time (the sequential step relation): each one finishes and releases
  its semaphore slot before the next `Acquire`; the mutex is then a no-op.  A call of `Acquire`
  that can never be granted blocks for ever, there being no signal to cancel the context.
-/

namespace Mirror

/-! ## Strings -/

/-- A Go string, as the sequence of its characters. -/
abbrev Str := List Char

/-- Go `strings.HasPrefix(s, prefix)`. -/
def HasPrefix (s pre : Str) : Bool := pre.isPrefixOf s

/-- Go `strings.TrimPrefix(s, prefix)`: `s` without the leading `prefix`, or `s` unchanged. -/
def TrimPrefix (s pre : Str) : Str :=
  if HasPrefix s pre then s.drop pre.length else s

/-- Go `strings.Contains(s, substr)`. -/
def Contains (s sub : Str) : Bool := s.tails.any (fun t => sub.isPrefixOf t)

/-! ## Go maps keyed by strings -/

/-- Lookup `m[k]`, `none` when the key is absent. -/
def mapGet {α : Type} : List (Str × α) → Str → Option α
  | [], _ => none
  | (k', v) :: rest, k => if k' = k then some v else mapGet rest k

/-- The assignment `m[k] = v`: overwrite the entry of `k`, or add one. -/
def mapSet {α : Type} : List (Str × α) → Str → α → List (Str × α)
  | [], k, v => [(k, v)]
  | (k', v') :: rest, k, v => if k' = k then (k, v) :: rest else (k', v') :: mapSet rest k v

/-- The Go map `visitedURLs : map[string]bool`: URL to "already crawled". -/
abbrev Frontier := List (Str × Bool)

/-- The comma-ok form `v, ok := m[k]`: the zero value `false` and `ok = false` when absent. -/
def mapIndex (m : Frontier) (k : Str) : Bool × Bool :=
  match mapGet m k with
  | some v => (v, true)
  | none => (false, false)

/-! ## `path/filepath` (Unix) -/

/-- The scan of `filepath.Ext`, from the last byte towards the first: `before` holds the bytes
`path[i], path[i-1], ...` and `after` is `path[i+1:]`. -/
def extScan : Str → Str → Str
  | [], _ => []
  | c :: before, after =>
    if c = '/' then []
    else if c = '.' then c :: after
    else extScan before (c :: after)

/-- Go `filepath.Ext(path)`: the suffix beginning at the final dot of the final element. -/
def Ext (path : Str) : Str := extScan path.reverse []

/-- The final element of a slash-separated path, in the words of the specification: the text after
the last slash (the whole path when there is no slash). -/
def lastElement (path : Str) : Str := (path.reverse.takeWhile (fun c => c != '/')).reverse

/-- An element has a file extension, in the words of the specification, when it holds a dot. -/
def hasExtension (element : Str) : Bool := element.contains '.'

/-- The backtracking of `filepath.Clean` on a `..` element, on the reversed output buffer:
`out.w--` and then `for out.w > dotdot && !IsPathSeparator(out.index(out.w)) { out.w-- }`. -/
def cleanBacktrack (dotdot : Nat) : Str → Str
  | [] => []
  | c :: out => if out.length > dotdot && c ≠ '/' then cleanBacktrack dotdot out else out

/-- The loop `for r < n` of `filepath.Clean`.  `path` is `path[r:]`, `out` the output buffer
reversed (so `out.w` is `out.length`); every iteration consumes input, `fuel` bounds them. -/
def cleanLoop (rooted : Bool) : Nat → Str → Str → Nat → Str
  | 0, _, out, _ => out
  | fuel + 1, path, out, dotdot =>
    if path = [] then out
    else if path.head? = some '/' then
      cleanLoop rooted fuel (path.drop 1) out dotdot
    else if path.head? = some '.' && (path.length = 1 || path.get? 1 = some '/') then
      cleanLoop rooted fuel (path.drop 1) out dotdot
    else if path.head? = some '.' && path.get? 1 = some '.'
        && (path.length = 2 || path.get? 2 = some '/') then
      if out.length > dotdot then
        cleanLoop rooted fuel (path.drop 2) (cleanBacktrack dotdot out) dotdot
      else if !rooted then
        let out1 := if out.length > 0 then '/' :: out else out
        let out2 := '.' :: '.' :: out1
        cleanLoop rooted fuel (path.drop 2) out2 out2.length
      else
        cleanLoop rooted fuel (path.drop 2) out dotdot
    else
      let out1 :=
        if (rooted && out.length != 1) || (!rooted && out.length != 0) then '/' :: out else out
      cleanLoop rooted fuel (path.dropWhile (fun c => c != '/'))
        ((path.takeWhile (fun c => c != '/')).reverse ++ out1) dotdot

/-- Go `filepath.Clean(path)` on Unix (no volume name). -/
def Clean (path : Str) : Str :=
  if path = [] then ['.']
  else
    let rooted := path.head? = some '/'
    let out :=
      if rooted then cleanLoop true path.length (path.drop 1) ['/'] 1
      else cleanLoop false path.length path [] 0
    if out.length = 0 then ['.'] else out.reverse

/-- Go `filepath.Join(elem...)`: the elements from the first non-empty one on, joined by the
separator and cleaned. -/
def Join : List Str → Str
  | [] => []
  | e :: rest => if e ≠ [] then Clean (['/'].intercalate (e :: rest)) else Join rest

/-! ## Configuration, errors and collaborators -/

/-- The struct `config.Config`. -/
structure Config where
  StartURL : Str
  DirectoryPath : Str
  NumWorkers : Int

/-- Errors of the crawler: `errors.CrawlError` and the errors of the collaborators. -/
inductive Err where
  | crawlError (url : Str) (message : Str)
  | parseError
  | transportError
  | readBodyError
  | retrieveError
  | storeError
  deriving DecidableEq, Repr

/-- What the crawler reads of a `*url.URL`. -/
structure URL where
  Path : Str
  deriving DecidableEq, Repr

/-- The outcome of `http.Get` followed by `ioutil.ReadAll(resp.Body)`: a transport failure, or a
response with its status code and its body (`none` when reading the body fails). -/
inductive HttpOutcome where
  | transportError
  | response (StatusCode : Nat) (body : Option Str)
  deriving DecidableEq, Repr

/-- The collaborators outside the repository. -/
structure Env where
  /-- Go `url.Parse`. -/
  urlParse : Str → Except Err URL
  /-- Go `http.Get` and the read of the response body. -/
  httpGet : Str → HttpOutcome
  /-- `ioutil.ReadFile` fails on this path with an error other than "no such file or directory". -/
  readFails : Str → Bool
  /-- One of `os.MkdirAll`, `os.Create`, `file.Write` fails on this path. -/
  storeFails : Str → Bool

/-! ## `storage.DiskStorage` -/

/-- The file system seen through `DiskStorage`: the content of each file, and (ghost state) the
calls of `Store` made so far, newest first. -/
structure Disk where
  files : List (Str × Str)
  storeCalls : List (Str × Str)

/-- `DiskStorage.Store`.  A failing store is modelled as leaving the files as they were. -/
def DiskStorage.Store (env : Env) (d : Disk) (filePath data : Str) : Except Err Unit × Disk :=
  let d1 : Disk := { d with storeCalls := (filePath, data) :: d.storeCalls }
  if env.storeFails filePath then (.error .storeError, d1)
  else (.ok (), { d1 with files := mapSet d1.files filePath data })

/-- `DiskStorage.Retrieve`: a missing file is no error, the data is then `nil` (empty). -/
def DiskStorage.Retrieve (env : Env) (d : Disk) (filePath : Str) : Except Err Str :=
  if env.readFails filePath then .error .retrieveError
  else
    match mapGet d.files filePath with
    | some data => .ok data
    | none => .ok []

/-! ## `regexp.MustCompile("a href=\"(.*?)\"").FindAllString(body, -1)` -/

/-- The literal `attribute + "=\""`, that is `a href="`. -/
def hrefOpen : Str := ['a', ' ', 'h', 'r', 'e', 'f', '=', '"']

/-- The tail `(.*?)"` of the pattern, matched at the head of the input: the lazy star takes the
shortest run of characters other than newline (`.` does not match `\n`) that is followed by a
double quote.  Returns the run. -/
def lazyUntilQuote : Str → Option Str
  | [] => none
  | c :: cs =>
    if c = '"' then some []
    else if c = '\n' then none
    else (lazyUntilQuote cs).map (fun v => c :: v)

/-- The whole pattern matched at the head of the input; returns the matched text. -/
def matchHere (s : Str) : Option Str :=
  if HasPrefix s hrefOpen then
    (lazyUntilQuote (s.drop hrefOpen.length)).map (fun v => hrefOpen ++ v ++ ['"'])
  else none

/-- The scan of `FindAllString`: leftmost matches, none overlapping.  `skip` counts the characters
of the previous match that are still to be stepped over. -/
def findAllFrom : Nat → Str → List Str
  | _, [] => []
  | skip + 1, _ :: cs => findAllFrom skip cs
  | 0, c :: cs =>
    match matchHere (c :: cs) with
    | some m => m :: findAllFrom (m.length - 1) cs
    | none => findAllFrom 0 cs

/-- All matches of `a href="(.*?)"` in the body, in order. -/
def FindAllString (body : Str) : List Str := findAllFrom 0 body

/-! ## `Crawler.parseLinks` -/

/-- The slice list `[]string{"#popup:", "font-family:", "'"}` of `parseLinks`. -/
def invalidPrefixes : List Str :=
  [['#', 'p', 'o', 'p', 'u', 'p', ':'],
   ['f', 'o', 'n', 't', '-', 'f', 'a', 'm', 'i', 'l', 'y', ':'],
   ['\'']]

/-- The inner loop of `parseLinks` (lines 212-216): its `continue` continues this inner loop, so
the loop has no effect on the enclosing iteration. -/
def invalidPrefixLoop (value : Str) : List Str → Unit
  | [] => ()
  | invalidPrefix :: rest =>
    if Contains value invalidPrefix then invalidPrefixLoop value rest
    else invalidPrefixLoop value rest

/-- The expression of line 210:
`strings.TrimPrefix(match, attribute+"=\"")[:(len(match)-len(attribute+"=\""))-1]`. -/
def hrefValue (m : Str) : Str :=
  (TrimPrefix m hrefOpen).take (m.length - hrefOpen.length - 1)

/-! ## The crawler -/

/-- The struct `Crawler`: configuration, the frontier map, and the state behind `store`. -/
structure Crawler where
  cfg : Config
  visitedURLs : Frontier
  disk : Disk

/-- `NewCrawler`, over the file system found at start. -/
def NewCrawler (cfg : Config) (disk : Disk) : Crawler :=
  { cfg := cfg, visitedURLs := [], disk := disk }

namespace Crawler

/-- One iteration of the loop over the matches in `parseLinks` (lines 209-235): `none` is a
`continue` of the outer loop, `some v` is `newURLs = append(newURLs, v)`. -/
def parseLink (c : Crawler) (m : Str) : Option Str :=
  let value := hrefValue m
  match invalidPrefixLoop value invalidPrefixes with
  | () =>
    if HasPrefix value ['h', 't', 't', 'p'] && !HasPrefix value c.cfg.StartURL then none
    else
      let value := TrimPrefix value c.cfg.StartURL
      if (mapIndex c.visitedURLs value).2 then none
      else if HasPrefix value ['/'] then some (c.cfg.StartURL ++ value)
      else some value

/-- `Crawler.parseLinks`: the links of the page, in order of appearance.  The error result is
always `nil`. -/
def parseLinks (c : Crawler) (body : Str) : Except Err (List Str) :=
  .ok ((FindAllString body).filterMap c.parseLink)

/-- `Crawler.createFilePath`. -/
def createFilePath (env : Env) (c : Crawler) (urlToCrawl : Str) : Except Err Str :=
  if (mapIndex c.visitedURLs urlToCrawl).2 && (mapIndex c.visitedURLs urlToCrawl).1 then
    .error (.crawlError urlToCrawl "URL was already crawled".toList)
  else
    match env.urlParse urlToCrawl with
    | .error e => .error e
    | .ok parsedURL =>
      let urlPath := if urlToCrawl = c.cfg.StartURL then "index.html".toList else parsedURL.Path
      let filePath := Join [c.cfg.DirectoryPath, urlPath]
      if Ext urlPath = [] then .ok (filePath ++ ".html".toList) else .ok filePath

/-- `Crawler.crawlURL`: fetch, compare with the stored file, store when different.  Returns the
body (or the error) and the file system afterwards. -/
def crawlURL (env : Env) (c : Crawler) (urlToCrawl filePath : Str) : Except Err Str × Disk :=
  match env.httpGet urlToCrawl with
  | .transportError => (.error .transportError, c.disk)
  | .response statusCode body? =>
    if statusCode ≠ 200 then
      (.error (.crawlError urlToCrawl ("received statuscode ".toList ++ (Nat.repr statusCode).toList)),
        c.disk)
    else
      match body? with
      | none => (.error .readBodyError, c.disk)
      | some body =>
        match DiskStorage.Retrieve env c.disk filePath with
        | .error e => (.error e, c.disk)
        | .ok fileRetrived =>
          if body = fileRetrived then (.ok body, c.disk)
          else
            match DiskStorage.Store env c.disk filePath body with
            | (.error e, d) => (.error e, d)
            | (.ok (), d) => (.ok body, d)

/-- One iteration of the loop over `childLinks` in `worker` (lines 122-130). -/
def addChild (m : Frontier) (childURL : Str) : Frontier :=
  if !(mapIndex m childURL).2 && !(mapIndex m childURL).1 then mapSet m childURL false else m

/-- The loop over `childLinks` in `worker`: link folding. -/
def addChildren (m : Frontier) (childLinks : List Str) : Frontier :=
  childLinks.foldl addChild m

/-- The tail of `worker` (lines 117-132): link extraction and link folding on a fetched body. -/
def foldLinks (c : Crawler) (body : Str) : Except Err Unit × Crawler :=
  match c.parseLinks body with
  | .error e => (.error e, c)
  | .ok childLinks => (.ok (), { c with visitedURLs := addChildren c.visitedURLs childLinks })

/-- `Crawler.worker`: the fetch pipeline of one URL.  Returns the error (if any) and the crawler
afterwards. -/
def worker (env : Env) (c : Crawler) (urlToCrawl : Str) : Except Err Unit × Crawler :=
  match c.createFilePath env urlToCrawl with
  | .error e => (.error e, c)
  | .ok filePath =>
    match c.crawlURL env urlToCrawl filePath with
    | (.error e, d) => (.error e, { c with disk := d })
    | (.ok body, d) =>
      let c1 : Crawler := { c with disk := d, visitedURLs := mapSet c.visitedURLs urlToCrawl true }
      c1.foldLinks body

/-- `(*semaphore.Weighted).Acquire(ctx, n)` on a semaphore of capacity `size` holding `cur`, with
no waiter and a context that is never cancelled: the new count when `size - cur >= n`, and `none`
when the request exceeds what is free, which with no goroutine left to release blocks for ever. -/
def semAcquire (size cur n : Int) : Option Int :=
  if size - cur ≥ n then some (cur + n) else none

/-- The loop over `nextURLs` in `crawlWorker` (lines 83-96), run sequentially: `Acquire(ctx, 1)`,
then the goroutine runs `worker` (its error only logged) and releases the slot, so the semaphore
holds 0 again at the next iteration.  `none` when `Acquire` blocks for ever. -/
def crawlLoop (env : Env) : Crawler → List Str → Option Crawler
  | c, [] => some c
  | c, u :: rest =>
    match semAcquire c.cfg.NumWorkers 0 1 with
    | none => none
    | some _ => crawlLoop env (c.worker env u).2 rest

/-- `Crawler.crawlWorker`, run sequentially: the loop over the round, then the barrier
`Acquire(ctx, NumWorkers)` of line 98.  `none` when a call of `Acquire` blocks for ever. -/
def crawlWorker (env : Env) (c : Crawler) (nextURLs : List Str) : Option Crawler :=
  match crawlLoop env c nextURLs with
  | none => none
  | some c1 =>
    match semAcquire c1.cfg.NumWorkers 0 c1.cfg.NumWorkers with
    | none => none
    | some _ => some c1

/-- The snapshot `nextURLs` built at lines 60-67: the keys whose value is `false`. -/
def nextURLs (c : Crawler) : List Str :=
  (c.visitedURLs.filter (fun kv => !kv.2)).map (fun kv => kv.1)

/-- The `for` loop of `Start` with no signal on `quit`: `some c` when the loop returns through
"finished URL to be crawled" within `fuel` rounds, `none` when it has not returned by then (it is
still running, or blocked in `crawlWorker`). -/
def rounds (env : Env) : Nat → Crawler → Option Crawler
  | 0, _ => none
  | fuel + 1, c =>
    if c.nextURLs.length = 0 then some c
    else
      match c.crawlWorker env c.nextURLs with
      | none => none
      | some c1 => rounds env fuel c1

/-- `Crawler.Start` with no signal on `quit`, limited to `fuel` rounds. -/
def Start (env : Env) (fuel : Nat) (c : Crawler) : Option Crawler :=
  rounds env fuel { c with visitedURLs := mapSet c.visitedURLs c.cfg.StartURL false }

/-- The fetch-compare-store step run twice in a row on the same URL and path: the results of the
first and of the second run. -/
def crawlTwice (env : Env) (c : Crawler) (urlToCrawl filePath : Str) :
    (Except Err Str × Disk) × (Except Err Str × Disk) :=
  let r1 := c.crawlURL env urlToCrawl filePath
  (r1, Crawler.crawlURL env { c with disk := r1.2 } urlToCrawl filePath)

end Crawler

/-! ## Concrete inputs -/

/-- An empty mirror: no file, no store call yet. -/
def emptyDisk : Disk := { files := [], storeCalls := [] }

/-- The configuration of the scenario: seed `http://example.test/`. -/
def scenarioCfg : Config :=
  { StartURL := "http://example.test/".toList, DirectoryPath := "mirror".toList, NumWorkers := 2 }

/-- The crawler of the scenario when the seed page has just been fetched: the frontier holds the
seed only. -/
def scenarioCrawler : Crawler :=
  { cfg := scenarioCfg, visitedURLs := [("http://example.test/".toList, true)], disk := emptyDisk }

/-- The seed page of the scenario. -/
def scenarioBody : Str :=
  "<html><a href=\"/about.html\">About</a> <a href=\"http://other.test/x\">Other</a></html>".toList

/-- A configuration whose seed has no trailing slash. -/
def plainCfg : Config :=
  { StartURL := "http://example.test".toList, DirectoryPath := "mirror".toList, NumWorkers := 2 }

/-- A crawler over `plainCfg` whose frontier holds the (visited) seed only. -/
def plainCrawler : Crawler :=
  { cfg := plainCfg, visitedURLs := [("http://example.test".toList, true)], disk := emptyDisk }

/-- A world in which every URL parses to the path `path`, every fetch has the outcome `outcome`
and the file system never fails. -/
def constEnv (path : Str) (outcome : HttpOutcome) : Env :=
  { urlParse := fun _ => .ok { Path := path }
    httpGet := fun _ => outcome
    readFails := fun _ => false
    storeFails := fun _ => false }

/-- A crawler over `plainCfg` at the start of the first round: the seed is Pending. -/
def freshCrawler : Crawler :=
  { cfg := plainCfg, visitedURLs := [("http://example.test".toList, false)], disk := emptyDisk }

/-! ## Lemmas on the frontier map -/

/-- Reading a map after an assignment. -/
theorem mapGet_mapSet {α : Type} (m : List (Str × α)) (k k' : Str) (v : α) :
    mapGet (mapSet m k v) k' = if k = k' then some v else mapGet m k' := by
  induction m with
  | nil => simp [mapSet, mapGet]
  | cons kv rest ih =>
    obtain ⟨k1, v1⟩ := kv
    by_cases h1 : k1 = k
    · subst h1
      by_cases h2 : k1 = k' <;> simp [mapSet, mapGet, h2]
    · by_cases h2 : k1 = k'
      · subst h2
        have h3 : ¬ k = k1 := fun h => h1 h.symm
        simp [mapSet, mapGet, h1, h3]
      · simp [mapSet, mapGet, h1, h2, ih]

/-- The assigned key reads back the assigned value. -/
theorem mapGet_mapSet_self {α : Type} (m : List (Str × α)) (k : Str) (v : α) :
    mapGet (mapSet m k v) k = some v := by
  simp [mapGet_mapSet]

/-- The `ok` of the comma-ok lookup says whether the key is present. -/
theorem mapIndex_snd (m : Frontier) (k : Str) : (mapIndex m k).2 = (mapGet m k).isSome := by
  unfold mapIndex
  cases mapGet m k <;> rfl

/-- One step of link folding changes no existing entry. -/
theorem addChild_keeps (m : Frontier) (child k : Str) (b : Bool) (h : mapGet m k = some b) :
    mapGet (Crawler.addChild m child) k = some b := by
  unfold Crawler.addChild
  split
  · rename_i hc
    have hne : ¬ child = k := by
      intro heq
      subst heq
      simp [mapIndex, h] at hc
    simp [mapGet_mapSet, hne, h]
  · exact h

/-- Link folding changes no existing entry. -/
theorem addChildren_keeps (links : List Str) (m : Frontier) (k : Str) (b : Bool)
    (h : mapGet m k = some b) : mapGet (Crawler.addChildren m links) k = some b := by
  induction links generalizing m with
  | nil => exact h
  | cons l rest ih =>
    simp only [Crawler.addChildren, List.foldl_cons]
    exact ih _ (addChild_keeps m l k b h)

/-- Link extraction followed by link folding changes no existing entry. -/
theorem foldLinks_keeps (c : Crawler) (body k : Str) (b : Bool)
    (h : mapGet c.visitedURLs k = some b) :
    mapGet (c.foldLinks body).2.visitedURLs k = some b := by
  simp only [Crawler.foldLinks, Crawler.parseLinks]
  exact addChildren_keeps _ _ k b h

/-- Link extraction and folding never fail. -/
theorem foldLinks_ok (c : Crawler) (body : Str) : (c.foldLinks body).1 = .ok () := by
  simp [Crawler.foldLinks, Crawler.parseLinks]

/-- The two shapes of the frontier after `worker`: untouched (with an error returned), or the URL
marked and the links folded in (with no error). -/
theorem worker_cases (env : Env) (c : Crawler) (u : Str) :
    ((∃ e, (c.worker env u).1 = .error e) ∧ (c.worker env u).2.visitedURLs = c.visitedURLs)
      ∨ ((c.worker env u).1 = .ok () ∧ ∃ d body, (c.worker env u).2.visitedURLs
          = (Crawler.foldLinks { c with disk := d, visitedURLs := mapSet c.visitedURLs u true }
              body).2.visitedURLs) := by
  cases h1 : c.createFilePath env u with
  | error e =>
    simp [Crawler.worker, h1]
  | ok filePath =>
    rcases h2 : c.crawlURL env u filePath with ⟨r, d⟩
    cases r with
    | error e =>
      simp [Crawler.worker, h1, h2]
    | ok body =>
      simp only [Crawler.worker, h1, h2]
      exact Or.inr ⟨foldLinks_ok _ _, d, body, rfl⟩

/-- When the fetch of `u` does not deliver a body with status 200, `crawlURL` fails and leaves the
file system as it was. -/
theorem crawlURL_fetch_fails (env : Env) (c : Crawler) (u filePath : Str)
    (h : ∀ body, env.httpGet u ≠ .response 200 (some body)) :
    ∃ e, c.crawlURL env u filePath = (.error e, c.disk) := by
  unfold Crawler.crawlURL
  cases hg : env.httpGet u with
  | transportError => exact ⟨_, rfl⟩
  | response statusCode body? =>
    by_cases hs : statusCode = 200
    · subst hs
      cases body? with
      | none => exact ⟨_, rfl⟩
      | some body => exact absurd hg (h body)
    · simp only [ne_eq, hs, not_false_eq_true, if_true]
      exact ⟨_, rfl⟩

/-- A failed fetch leaves the whole crawler as it was. -/
theorem worker_fetch_fails (env : Env) (c : Crawler) (u : Str)
    (h : ∀ body, env.httpGet u ≠ .response 200 (some body)) :
    (c.worker env u).2 = c := by
  cases h1 : c.createFilePath env u with
  | error e => simp only [Crawler.worker, h1]
  | ok filePath =>
    obtain ⟨e, he⟩ := crawlURL_fetch_fails env c u filePath h
    simp only [Crawler.worker, h1, he]

/-- With a failing fetch of the only pending URL, the round loop never leaves its first state. -/
theorem rounds_stuck (env : Env) (cfg : Config) (disk : Disk)
    (h : ∀ body, env.httpGet cfg.StartURL ≠ .response 200 (some body)) (fuel : Nat) :
    Crawler.rounds env fuel
      { cfg := cfg, visitedURLs := [(cfg.StartURL, false)], disk := disk } = none := by
  induction fuel with
  | zero => rfl
  | succ n ih =>
    have hw := worker_fetch_fails env
      { cfg := cfg, visitedURLs := [(cfg.StartURL, false)], disk := disk } cfg.StartURL h
    have hc : Crawler.crawlWorker env
        { cfg := cfg, visitedURLs := [(cfg.StartURL, false)], disk := disk } [cfg.StartURL] = none
        ∨ Crawler.crawlWorker env
        { cfg := cfg, visitedURLs := [(cfg.StartURL, false)], disk := disk } [cfg.StartURL]
          = some { cfg := cfg, visitedURLs := [(cfg.StartURL, false)], disk := disk } := by
      simp only [Crawler.crawlWorker, Crawler.crawlLoop, hw]
      cases Crawler.semAcquire cfg.NumWorkers 0 1 with
      | none => exact Or.inl rfl
      | some _ =>
        simp only
        cases Crawler.semAcquire cfg.NumWorkers 0 cfg.NumWorkers with
        | none => exact Or.inl rfl
        | some _ => exact Or.inr rfl
    simp only [Crawler.rounds, Crawler.nextURLs, List.filter, List.map,
      Bool.not_false, List.length_cons, List.length_nil]
    rcases hc with hc | hc
    · simp [hc]
    · simp [hc, ih]

/-! ## The fetch pipeline and the round loop -/

/-- C1 (the code on the failing outcomes): whenever `worker` returns an error - a URL that does
not parse, a transport failure, a status other than 200, a failed read of the body, a storage read
or write failure - the frontier is left as it was, so a Pending URL is still Pending (not Visited)
when `worker` returns. -/
theorem worker_error_leaves_pending (env : Env) (c : Crawler) (u : Str)
    (hp : mapGet c.visitedURLs u = some false) (he : ∃ e, (c.worker env u).1 = .error e) :
    (c.worker env u).2.visitedURLs = c.visitedURLs
      ∧ mapGet (c.worker env u).2.visitedURLs u = some false := by
  rcases worker_cases env c u with ⟨_, h⟩ | ⟨hok, _⟩
  · exact ⟨h, by rw [h]; exact hp⟩
  · obtain ⟨e, he⟩ := he
    rw [he] at hok
    cases hok

/-- C1, at the seed answered with status 404. -/
theorem worker_error_leaves_pending_witness :
    (freshCrawler.worker (constEnv [] (.response 404 (some []))) "http://example.test".toList).2.visitedURLs
        = freshCrawler.visitedURLs
      ∧ mapGet (freshCrawler.worker (constEnv [] (.response 404 (some [])))
          "http://example.test".toList).2.visitedURLs "http://example.test".toList = some false :=
  worker_error_leaves_pending (constEnv [] (.response 404 (some []))) freshCrawler
    "http://example.test".toList (by decide) ⟨_, rfl⟩

/-- C2 (the code on a seed whose fetch fails): when the fetch of the seed does not deliver a body
with status 200, the round loop of `Start` has not reached its Done exit after any number of
rounds. -/
theorem Start_never_done_when_seed_fetch_fails (env : Env) (cfg : Config) (disk : Disk)
    (h : ∀ body, env.httpGet cfg.StartURL ≠ .response 200 (some body)) (fuel : Nat) :
    (NewCrawler cfg disk).Start env fuel = none := by
  simp only [Crawler.Start, NewCrawler, mapSet]
  exact rounds_stuck env cfg disk h fuel

/-- C2, at a seed answered with status 404, for a thousand rounds. -/
theorem Start_never_done_when_seed_fetch_fails_witness :
    (NewCrawler plainCfg emptyDisk).Start (constEnv [] (.response 404 (some []))) 1000 = none :=
  Start_never_done_when_seed_fetch_fails (constEnv [] (.response 404 (some []))) plainCfg
    emptyDisk (fun _ hb => by cases hb) 1000

/-- C3: one execution of `worker`, whatever its outcome, keeps every entry of the frontier
(a known URL stays known), keeps every Visited entry Visited, and leaves the state of every known
URL other than the crawled one unchanged; link folding alone changes no existing entry, so it
only inserts URLs that were absent and never resets a known URL to Pending. -/
theorem worker_frontier_monotone (env : Env) (c : Crawler) (u k : Str) (b : Bool)
    (h : mapGet c.visitedURLs k = some b) :
    (mapGet (c.worker env u).2.visitedURLs k).isSome = true
      ∧ (b = true → mapGet (c.worker env u).2.visitedURLs k = some true)
      ∧ (k ≠ u → mapGet (c.worker env u).2.visitedURLs k = some b)
      ∧ (∀ body, mapGet (c.foldLinks body).2.visitedURLs k = some b) := by
  have hfold : ∀ body, mapGet (c.foldLinks body).2.visitedURLs k = some b :=
    fun body => foldLinks_keeps c body k b h
  rcases worker_cases env c u with ⟨_, hw⟩ | ⟨_, d, body, hw⟩
  · rw [hw]
    exact ⟨by simp [h], fun hb => hb ▸ h, fun _ => h, hfold⟩
  · rw [hw]
    by_cases hk : u = k
    · have h1 : mapGet (Crawler.foldLinks
          { c with disk := d, visitedURLs := mapSet c.visitedURLs u true } body).2.visitedURLs k
          = some true :=
        foldLinks_keeps _ body k true (by simp [mapGet_mapSet, hk])
      exact ⟨by simp [h1], fun _ => h1, fun hne => absurd hk.symm hne, hfold⟩
    · have h1 : mapGet (Crawler.foldLinks
          { c with disk := d, visitedURLs := mapSet c.visitedURLs u true } body).2.visitedURLs k
          = some b :=
        foldLinks_keeps _ body k b (by simp [mapGet_mapSet, hk, h])
      exact ⟨by simp [h1], fun hb => hb ▸ h1, fun _ => h1, hfold⟩

/-- C3, on the scenario: the seed page is fetched with the seed and `/old` already Visited and
`/old` linked from the page. -/
theorem worker_frontier_monotone_witness :
    (mapGet (Crawler.worker (constEnv [] (.response 200 (some "<a href=\"/old\">".toList)))
        { cfg := plainCfg, visitedURLs := [("http://example.test".toList, false),
            ("http://example.test/old".toList, true)], disk := emptyDisk }
        "http://example.test".toList).2.visitedURLs "http://example.test/old".toList).isSome = true
      ∧ (true = true → mapGet (Crawler.worker
          (constEnv [] (.response 200 (some "<a href=\"/old\">".toList)))
          { cfg := plainCfg, visitedURLs := [("http://example.test".toList, false),
              ("http://example.test/old".toList, true)], disk := emptyDisk }
          "http://example.test".toList).2.visitedURLs "http://example.test/old".toList = some true)
      ∧ ("http://example.test/old".toList ≠ "http://example.test".toList → mapGet (Crawler.worker
          (constEnv [] (.response 200 (some "<a href=\"/old\">".toList)))
          { cfg := plainCfg, visitedURLs := [("http://example.test".toList, false),
              ("http://example.test/old".toList, true)], disk := emptyDisk }
          "http://example.test".toList).2.visitedURLs "http://example.test/old".toList = some true)
      ∧ (∀ body, mapGet (Crawler.foldLinks
          { cfg := plainCfg, visitedURLs := [("http://example.test".toList, false),
              ("http://example.test/old".toList, true)], disk := emptyDisk } body).2.visitedURLs
          "http://example.test/old".toList = some true) :=
  worker_frontier_monotone (constEnv [] (.response 200 (some "<a href=\"/old\">".toList)))
    { cfg := plainCfg, visitedURLs := [("http://example.test".toList, false),
        ("http://example.test/old".toList, true)], disk := emptyDisk }
    "http://example.test".toList "http://example.test/old".toList true (by decide)

/-! ## Lemmas on strings and paths -/

/-- The scan of `Ext` finds nothing exactly when no dot comes before the first slash met. -/
theorem extScan_eq_nil (before after : Str) :
    extScan before after = [] ↔ '.' ∉ before.takeWhile (fun c => c != '/') := by
  induction before generalizing after with
  | nil => simp [extScan]
  | cons c rest ih =>
    by_cases h1 : c = '/'
    · simp [extScan, h1]
    · by_cases h2 : c = '.'
      · simp [extScan, h2]
      · have h3 : ¬ '.' = c := fun h => h2 h.symm
        simp [extScan, h1, h2, h3, List.takeWhile_cons, ih]

/-- `filepath.Ext` is empty exactly when the final element has no extension. -/
theorem Ext_eq_nil_iff (path : Str) : Ext path = [] ↔ hasExtension (lastElement path) = false := by
  unfold Ext hasExtension lastElement
  rw [extScan_eq_nil]
  simp

/-- The result of `createFilePath` once the guard and the parse are passed. -/
theorem createFilePath_of_pending (env : Env) (c : Crawler) (u : Str) (parsed : URL)
    (hv : mapGet c.visitedURLs u ≠ some true) (hp : env.urlParse u = .ok parsed) :
    c.createFilePath env u
      = (if Ext (if u = c.cfg.StartURL then "index.html".toList else parsed.Path) = [] then
          .ok (Join [c.cfg.DirectoryPath,
            if u = c.cfg.StartURL then "index.html".toList else parsed.Path] ++ ".html".toList)
        else
          .ok (Join [c.cfg.DirectoryPath,
            if u = c.cfg.StartURL then "index.html".toList else parsed.Path])) := by
  have hg : ((mapIndex c.visitedURLs u).2 && (mapIndex c.visitedURLs u).1) = false := by
    unfold mapIndex
    cases hm : mapGet c.visitedURLs u with
    | none => rfl
    | some v =>
      cases v
      · rfl
      · exact absurd hm hv
  simp only [Crawler.createFilePath, hg, hp]
  rfl

/-! ## Link extraction: the scenario, the same-site check, the blocklist -/

/-- C4 (the code at the failing input): in the scenario, with the seed `http://example.test/`,
link extraction and link folding register `http://example.test//about.html`, the seed string
followed by the href with both slashes; the string `http://example.test/about.html` is not
registered and the pending snapshot is not that single URL.  On the same seed the absolute href
`http://example.test/about.html` is returned as the relative `about.html`. -/
theorem scenario_about_not_registered :
    mapGet (scenarioCrawler.foldLinks scenarioBody).2.visitedURLs
        "http://example.test/about.html".toList = none
      ∧ (scenarioCrawler.foldLinks scenarioBody).2.nextURLs
        ≠ ["http://example.test/about.html".toList]
      ∧ (scenarioCrawler.foldLinks scenarioBody).2.visitedURLs
        = [("http://example.test/".toList, true), ("http://example.test//about.html".toList, false)]
      ∧ scenarioCrawler.parseLinks "<a href=\"http://example.test/about.html\">".toList
        = .ok ["about.html".toList] := by
  refine ⟨by decide, by decide, by decide, rfl⟩

/-- C5 (the code at the failing inputs): with the seed `http://example.test`, a page-relative href
is returned unchanged, without the seed prefix; and an href that continues the seed prefix with
another absolute URL passes the same-domain check and is returned as that absolute URL, which
starts with `http` and lacks the seed prefix. -/
theorem parseLinks_returns_off_site :
    plainCrawler.parseLinks "<a href=\"about.html\">".toList = .ok ["about.html".toList]
      ∧ HasPrefix "about.html".toList plainCrawler.cfg.StartURL = false
      ∧ plainCrawler.parseLinks "<a href=\"http://example.testhttp://other.test/x\">".toList
        = .ok ["http://other.test/x".toList]
      ∧ HasPrefix "http://other.test/x".toList "http".toList = true
      ∧ HasPrefix "http://other.test/x".toList plainCrawler.cfg.StartURL = false := by
  refine ⟨rfl, by decide, rfl, by decide, by decide⟩

/-- C8 (the code at the failing input): href values that contain `#popup:`, `font-family:` or an
apostrophe are all returned by `parseLinks`. -/
theorem parseLinks_keeps_blocklisted :
    plainCrawler.parseLinks
        "<a href=\"/x#popup:1\"> <a href=\"/font-family:serif\"> <a href=\"/it's\">".toList
      = .ok ["http://example.test/x#popup:1".toList, "http://example.test/font-family:serif".toList,
          "http://example.test/it's".toList]
      ∧ Contains "/x#popup:1".toList "#popup:".toList = true
      ∧ Contains "/font-family:serif".toList "font-family:".toList = true
      ∧ Contains "/it's".toList "'".toList = true := by
  refine ⟨rfl, by decide, by decide, by decide⟩

/-! ## Path derivation -/

/-- C6: for a URL that parses and is not Visited, `createFilePath` returns
`Join(DirectoryPath, "index.html")` for the seed, and otherwise `Join(DirectoryPath, path)` with
`.html` appended exactly when the final element of the path has no extension; the result is the
same in every crawler with the same configuration in which the URL is not Visited. -/
theorem createFilePath_spec (env : Env) (c : Crawler) (u : Str) (parsed : URL)
    (hv : mapGet c.visitedURLs u ≠ some true) (hp : env.urlParse u = .ok parsed) :
    c.createFilePath env u
        = .ok (if u = c.cfg.StartURL then Join [c.cfg.DirectoryPath, "index.html".toList]
            else if hasExtension (lastElement parsed.Path) then
              Join [c.cfg.DirectoryPath, parsed.Path]
            else Join [c.cfg.DirectoryPath, parsed.Path] ++ ".html".toList)
      ∧ ∀ c2 : Crawler, c2.cfg = c.cfg → mapGet c2.visitedURLs u ≠ some true →
          c2.createFilePath env u = c.createFilePath env u := by
  constructor
  · rw [createFilePath_of_pending env c u parsed hv hp]
    by_cases hs : u = c.cfg.StartURL
    · simp only [hs, if_true]
      rfl
    · simp only [hs, if_false]
      cases he : hasExtension (lastElement parsed.Path) with
      | true =>
        have hne : ¬ Ext parsed.Path = [] := by
          rw [Ext_eq_nil_iff, he]
          simp
        simp [hne]
      | false =>
        have heq : Ext parsed.Path = [] := (Ext_eq_nil_iff _).mpr he
        simp [heq]
  · intro c2 hcfg hv2
    rw [createFilePath_of_pending env c u parsed hv hp,
      createFilePath_of_pending env c2 u parsed hv2 hp, hcfg]

/-- C6, at a discovered URL whose path `/docs/guide` has no extension. -/
theorem createFilePath_spec_witness :
    freshCrawler.createFilePath (constEnv "/docs/guide".toList .transportError)
          "http://example.test/docs/guide".toList
        = .ok (if "http://example.test/docs/guide".toList = freshCrawler.cfg.StartURL then
              Join [freshCrawler.cfg.DirectoryPath, "index.html".toList]
            else if hasExtension (lastElement (URL.mk "/docs/guide".toList).Path) then
              Join [freshCrawler.cfg.DirectoryPath, (URL.mk "/docs/guide".toList).Path]
            else Join [freshCrawler.cfg.DirectoryPath, (URL.mk "/docs/guide".toList).Path]
              ++ ".html".toList)
      ∧ ∀ c2 : Crawler, c2.cfg = freshCrawler.cfg →
          mapGet c2.visitedURLs "http://example.test/docs/guide".toList ≠ some true →
          c2.createFilePath (constEnv "/docs/guide".toList .transportError)
              "http://example.test/docs/guide".toList
            = freshCrawler.createFilePath (constEnv "/docs/guide".toList .transportError)
              "http://example.test/docs/guide".toList :=
  createFilePath_spec (constEnv "/docs/guide".toList .transportError) freshCrawler
    "http://example.test/docs/guide".toList (URL.mk "/docs/guide".toList) (by decide) rfl

/-- C9 (the code at the failing inputs): with `DirectoryPath` `mirror`, a URL other than the seed
whose path is `/` or empty gets the storage path `mirror.html`, a sibling of the mirror directory,
and a URL whose path is `/../../etc/passwd` gets `../etc/passwd.html`; neither lies under
`mirror/`. -/
theorem createFilePath_outside_mirror (env : Env) (c : Crawler) (u : Str)
    (hc : c.cfg = plainCfg) (hu : u ≠ plainCfg.StartURL)
    (hv : mapGet c.visitedURLs u ≠ some true) :
    (env.urlParse u = .ok { Path := "/".toList } →
        c.createFilePath env u = .ok "mirror.html".toList)
      ∧ (env.urlParse u = .ok { Path := [] } →
        c.createFilePath env u = .ok "mirror.html".toList)
      ∧ (env.urlParse u = .ok { Path := "/../../etc/passwd".toList } →
        c.createFilePath env u = .ok "../etc/passwd.html".toList)
      ∧ HasPrefix "mirror.html".toList "mirror/".toList = false
      ∧ HasPrefix "../etc/passwd.html".toList "mirror/".toList = false := by
  have hu2 : ¬ u = c.cfg.StartURL := by rw [hc]; exact hu
  refine ⟨fun hp => ?_, fun hp => ?_, fun hp => ?_, by decide, by decide⟩
  · rw [createFilePath_of_pending env c u _ hv hp, hc]
    simp only [← hc, hu2, if_false]
    rw [hc]
    rfl
  · rw [createFilePath_of_pending env c u _ hv hp, hc]
    simp only [← hc, hu2, if_false]
    rw [hc]
    rfl
  · rw [createFilePath_of_pending env c u _ hv hp, hc]
    simp only [← hc, hu2, if_false]
    rw [hc]
    rfl

/-- C9, at the site root `http://example.test/` linked from the seed `http://example.test`. -/
theorem createFilePath_outside_mirror_witness :
    plainCrawler.createFilePath (constEnv "/".toList .transportError) "http://example.test/".toList
        = .ok "mirror.html".toList
      ∧ HasPrefix "mirror.html".toList "mirror/".toList = false :=
  ⟨(createFilePath_outside_mirror (constEnv "/".toList .transportError) plainCrawler
      "http://example.test/".toList rfl (by decide) (by decide)).1 rfl,
    (createFilePath_outside_mirror (constEnv "/".toList .transportError) plainCrawler
      "http://example.test/".toList rfl (by decide) (by decide)).2.2.2.1⟩

/-! ## Idempotent mirroring -/

/-- C7 (as stated, refuted): with an empty body fetched successfully and nothing stored at the
path, both runs succeed and no `Store` call is made at all. -/
theorem crawlTwice_empty_body_never_stores :
    (Crawler.crawlTwice (constEnv [] (.response 200 (some []))) freshCrawler
        "http://example.test".toList "mirror/index.html".toList).1.1 = .ok []
      ∧ (Crawler.crawlTwice (constEnv [] (.response 200 (some []))) freshCrawler
        "http://example.test".toList "mirror/index.html".toList).2.1 = .ok []
      ∧ (Crawler.crawlTwice (constEnv [] (.response 200 (some []))) freshCrawler
        "http://example.test".toList "mirror/index.html".toList).2.2.storeCalls = [] :=
  ⟨rfl, rfl, rfl⟩

/-- C7 (amended): for every URL and every body fetched with status 200, starting with nothing
stored at the path and a file system that does not fail on it: when the body is not empty, the
first run of `crawlURL` stores the body at the path and the second run, on the resulting file
system, succeeds without changing it, so the two runs make exactly one `Store` call in total,
`(path, body)`; when the body is empty, both runs succeed and leave the file system and the list
of `Store` calls as they were, so no `Store` call is made. -/
theorem crawlTwice_stores_once (env : Env) (c : Crawler) (u filePath body : Str)
    (hget : env.httpGet u = .response 200 (some body))
    (habs : mapGet c.disk.files filePath = none)
    (hr : env.readFails filePath = false) (hs : env.storeFails filePath = false) :
    (body ≠ [] →
        (c.crawlTwice env u filePath).1
            = (.ok body, { files := mapSet c.disk.files filePath body,
                           storeCalls := (filePath, body) :: c.disk.storeCalls })
          ∧ (c.crawlTwice env u filePath).2
            = (.ok body, { files := mapSet c.disk.files filePath body,
                           storeCalls := (filePath, body) :: c.disk.storeCalls }))
      ∧ (body = [] →
        (c.crawlTwice env u filePath).1 = (.ok [], c.disk)
          ∧ (c.crawlTwice env u filePath).2 = (.ok [], c.disk)) := by
  constructor
  · intro hne
    have h1 : c.crawlURL env u filePath
        = (.ok body, { files := mapSet c.disk.files filePath body,
                       storeCalls := (filePath, body) :: c.disk.storeCalls }) := by
      simp [Crawler.crawlURL, hget, DiskStorage.Retrieve, DiskStorage.Store, hr, hs, habs, hne]
    have h2 : Crawler.crawlURL env
        { c with disk := { files := mapSet c.disk.files filePath body,
                           storeCalls := (filePath, body) :: c.disk.storeCalls } } u filePath
        = (.ok body, { files := mapSet c.disk.files filePath body,
                       storeCalls := (filePath, body) :: c.disk.storeCalls }) := by
      simp [Crawler.crawlURL, hget, DiskStorage.Retrieve, hr, mapGet_mapSet_self]
    simp only [Crawler.crawlTwice, h1, h2, and_self]
  · intro he
    subst he
    have h1 : c.crawlURL env u filePath = (.ok [], c.disk) := by
      simp [Crawler.crawlURL, hget, DiskStorage.Retrieve, hr, habs]
    have h2 : Crawler.crawlURL env { c with disk := c.disk } u filePath = (.ok [], c.disk) := by
      simp [Crawler.crawlURL, hget, DiskStorage.Retrieve, hr, habs]
    simp only [Crawler.crawlTwice, h1, h2, and_self]

/-- C7 (amended), at the seed page with body `hello`, and at the seed page with an empty body. -/
theorem crawlTwice_stores_once_witness :
    ((freshCrawler.crawlTwice (constEnv [] (.response 200 (some "hello".toList)))
        "http://example.test".toList "mirror/index.html".toList).1
        = (.ok "hello".toList,
            { files := mapSet freshCrawler.disk.files "mirror/index.html".toList "hello".toList,
              storeCalls := ("mirror/index.html".toList, "hello".toList)
                :: freshCrawler.disk.storeCalls })
      ∧ (freshCrawler.crawlTwice (constEnv [] (.response 200 (some "hello".toList)))
        "http://example.test".toList "mirror/index.html".toList).2
        = (.ok "hello".toList,
            { files := mapSet freshCrawler.disk.files "mirror/index.html".toList "hello".toList,
              storeCalls := ("mirror/index.html".toList, "hello".toList)
                :: freshCrawler.disk.storeCalls }))
      ∧ ((freshCrawler.crawlTwice (constEnv [] (.response 200 (some [])))
          "http://example.test".toList "mirror/index.html".toList).1 = (.ok [], freshCrawler.disk)
        ∧ (freshCrawler.crawlTwice (constEnv [] (.response 200 (some [])))
          "http://example.test".toList "mirror/index.html".toList).2
            = (.ok [], freshCrawler.disk)) :=
  ⟨(crawlTwice_stores_once (constEnv [] (.response 200 (some "hello".toList))) freshCrawler
      "http://example.test".toList "mirror/index.html".toList "hello".toList rfl rfl rfl rfl).1
      (by decide),
    (crawlTwice_stores_once (constEnv [] (.response 200 (some []))) freshCrawler
      "http://example.test".toList "mirror/index.html".toList [] rfl rfl rfl rfl).2 rfl⟩

end Mirror
